import Mathlib

/-!
# Verification of the `antigravity` endpoint-monitoring agent

Shallow embedding, in Lean 4, of the pure core of the Rust sources under
`src/`: the browser-URL blacklist matcher and dwell tracking
(`src/core/browser_monitor.rs`), the orchestrator tick that feeds the
Partial-Access shared context (`src/core/monitor.rs`), the application
usage tracker (`src/core/app_tracker.rs`), the partial-access manager
(`src/core/partial_access_manager.rs`), the log uploader
(`src/config/client.rs`), and the accessibility-tree address-bar search
(`src/core/browser_monitor.rs`).

Modelling conventions:
* Rust `f64` timestamps/durations are modelled as `ℚ` (the claims under
  study only involve exact threshold comparisons, never float rounding).
* Rust `HashMap<String, _>` is modelled as an association list with
  first-match lookup; entry insertion erases any previous binding.
* OS effects (window handles, HTTP, the filesystem) are modelled as
  explicit inputs/outputs of the pure step functions.
-/

namespace Antigravity

/-- Substring containment on lists of characters: `containsSub h n` is true
iff `n` occurs contiguously inside `h`.  Models Rust's `str::contains`
(byte-level substring search coincides with character-level search on
well-formed UTF-8). -/
def containsSub (h n : List Char) : Bool :=
  h.tails.any fun t => n.isPrefixOf t

/-- Substring containment on strings, models `str::contains(&str)`. -/
def strContains (h n : String) : Bool :=
  containsSub h.data n.data

/-- `str::to_lowercase`, modelled per-character (`Char.toLower`; the
strings the claims exercise contain no characters whose Unicode lowercase
differs from the per-character ASCII mapping). -/
def toLowerS (s : String) : String :=
  String.mk (s.data.map Char.toLower)

/-- `str::len()`: the length of the string's UTF-8 encoding in bytes. -/
def utf8Len (s : String) : Nat :=
  s.data.foldl (fun n c => n + c.utf8Size) 0

/-- `str::starts_with`. -/
def startsWithS (s p : String) : Bool :=
  p.data.isPrefixOf s.data

/-- Drop the first `n` characters (all uses drop an ASCII prefix, where
Rust's byte indexing agrees with character counting). -/
def dropS (s : String) (n : Nat) : String :=
  String.mk (s.data.drop n)

/-- `str::trim_end_matches('/')`: remove every trailing `/`. -/
def dropTrailingSlashes (s : String) : String :=
  String.mk (s.data.reverse.dropWhile (· = '/')).reverse

/-- `str::contains(char)`. -/
def containsChar (s : String) (c : Char) : Bool :=
  s.data.any (· = c)

/-- `str::trim`: strip leading and trailing whitespace. -/
def trimS (s : String) : String :=
  String.mk (((s.data.dropWhile Char.isWhitespace).reverse.dropWhile Char.isWhitespace).reverse)

/-- Association-list lookup, models `HashMap::get`. -/
def lookupA {α : Type} (m : List (String × α)) (k : String) : Option α :=
  (m.find? fun p => p.1 == k).map (·.2)

/-- Association-list erase, models `HashMap::remove`'s removal effect. -/
def eraseA {α : Type} (m : List (String × α)) (k : String) : List (String × α) :=
  m.filter fun p => !(p.1 == k)

/-- Association-list insert-or-replace, models `HashMap::insert`. -/
def insertA {α : Type} (m : List (String × α)) (k : String) (v : α) : List (String × α) :=
  eraseA m k ++ [(k, v)]

/-- `*self.map.entry(k).or_insert(0.0) += d` on a `HashMap<String, f64>`. -/
def addEntry (m : List (String × ℚ)) (k : String) (d : ℚ) : List (String × ℚ) :=
  insertA m k ((lookupA m k).getD 0 + d)

/-- `*self.map.entry(k).or_insert(0) += 1` on a `HashMap<String, u32>`. -/
def incEntry (m : List (String × Nat)) (k : String) : List (String × Nat) :=
  insertA m k ((lookupA m k).getD 0 + 1)

/-! ## Blacklist matching (`src/core/browser_monitor.rs`, `is_blocked`) -/

/-- URL/pattern normalization from `is_blocked`: strip a leading
`http://`, then a leading `https://`, then a leading `www.`, then all
trailing `/` (Rust `trim_end_matches('/')`). -/
def normalizeUrl (s : String) : String :=
  let s1 := if startsWithS s "http://" then dropS s 7 else s
  let s2 := if startsWithS s1 "https://" then dropS s1 8 else s1
  let s3 := if startsWithS s2 "www." then dropS s2 4 else s2
  dropTrailingSlashes s3

/-- Model of the case-insensitive anchored regex that `is_blocked` compiles
from a wildcard pattern via `pattern.replace(".", "\\.").replace("*", ".*")`
wrapped in `(?i)^...$`: a literal character (including the escaped dot)
matches case-insensitively, and `*` (compiled to `.*`) matches any sequence
of non-newline characters.  Faithful for patterns containing no regex
metacharacter other than `.` and `*`, which is the class the policy
patterns live in. -/
def globMatchF (fuel : Nat) (p s : List Char) : Bool :=
  match fuel with
  | 0 => false
  | fuel + 1 =>
    match p, s with
    | [], s => s.isEmpty
    | c :: ps, s =>
      if c = '*' then
        globMatchF fuel ps s ||
          (match s with
           | [] => false
           | d :: ds => !(decide (d = '\n')) && globMatchF fuel (c :: ps) ds)
      else
        match s with
        | [] => false
        | d :: ds => decide (c.toLower = d.toLower) && globMatchF fuel ps ds

/-- The wildcard matcher at its canonical fuel.  Every recursive step of
`globMatchF` shortens `p ++ s` by at least one character, so
`p.length + s.length + 1` units of fuel are never exhausted and the fuel
parameter is only a structural-termination device. -/
def globMatch (p s : List Char) : Bool :=
  globMatchF (p.length + s.length + 1) p s

/-- `BrowserMonitor::is_blocked`: the 4-byte minimum guard on the
lowercased URL (`url_lower.len()` in Rust counts UTF-8 bytes), then for
each blacklist pattern either the anchored case-insensitive wildcard regex
against the original URL (pattern contains `*`) or containment of the
normalized pattern in the normalized lowercased URL. -/
def isBlocked (blacklist : List String) (url : String) : Bool :=
  let urlLower := toLowerS url
  if utf8Len urlLower < 4 then
    false
  else
    let normUrl := normalizeUrl urlLower
    blacklist.any fun pattern =>
      if containsChar pattern '*' then
        globMatch pattern.data url.data
      else
        containsSub normUrl.data (normalizeUrl pattern).data

/-- `BrowserMonitor::update_blacklist`: trim and lowercase each entry,
drop empties, replace wholesale. -/
def updateBlacklist (newBlacklist : List String) : List String :=
  (newBlacklist.map fun s => toLowerS (trimS s)).filter fun s => !s.isEmpty

/-! ## Browser monitor state and dwell tracking
(`src/core/browser_monitor.rs`, `BrowserMonitor`) -/

/-- The fields of `struct BrowserMonitor` (counters as `Nat`, `f64` times
as `ℚ`, the two `HashMap`s as association lists, the `VecDeque` as a list
whose head is the front). -/
structure BrowserMonitorState where
  last_url : String
  blocked_count : Nat
  suspicious_count : Nat
  url_timers : List (String × ℚ)
  total_times : List (String × ℚ)
  urls_for_upload : List String
  api_blacklist : List String
deriving DecidableEq

/-- `BrowserMonitor::new`. -/
def BrowserMonitorState.new : BrowserMonitorState :=
  { last_url := "", blocked_count := 0, suspicious_count := 0,
    url_timers := [], total_times := [], urls_for_upload := [],
    api_blacklist := [] }

/-- `BrowserMonitor::update_timing`, with the window-closing OS calls and
console output abstracted away (they do not touch the monitor's state
beyond the blocked counter). -/
def updateTiming (now : ℚ) (currentUrl : Option String)
    (s : BrowserMonitorState) : BrowserMonitorState :=
  match currentUrl with
  | some url =>
    let s :=
      if isBlocked s.api_blacklist url then
        { s with blocked_count := s.blocked_count + 1 }
      else s
    if url = s.last_url then s
    else
      let s :=
        if s.last_url ≠ "" then
          let start := (lookupA s.url_timers s.last_url).getD now
          { s with url_timers := eraseA s.url_timers s.last_url,
                   total_times := addEntry s.total_times s.last_url (now - start) }
        else s
      let q := s.urls_for_upload ++ [url]
      { s with last_url := url,
               url_timers := insertA s.url_timers url now,
               urls_for_upload := if q.length > 50 then q.drop 1 else q }
  | none =>
    if s.last_url ≠ "" then
      let start := (lookupA s.url_timers s.last_url).getD now
      { s with url_timers := eraseA s.url_timers s.last_url,
               total_times := addEntry s.total_times s.last_url (now - start),
               last_url := "" }
    else s

/-! ## Orchestrator tick (`src/core/monitor.rs`, `CybersecurityMonitor::run`) -/

/-- The Partial-Access shared context (`PartialAccessContext`). -/
structure PartialAccessContext where
  current_url : String
  current_domain : String
deriving DecidableEq

/-- Index of the first occurrence of `sep` as a contiguous sublist. -/
def findSubIdx (sep : List Char) : List Char → Option Nat
  | [] => if sep.isEmpty then some 0 else none
  | c :: rest =>
    if sep.isPrefixOf (c :: rest) then some 0
    else (findSubIdx sep rest).map (· + 1)

/-- The characters strictly after the first occurrence of `sep` (none if
`sep` does not occur). -/
def afterFirstSub (sep l : List Char) : Option (List Char) :=
  (findSubIdx sep l).map fun i => l.drop (i + sep.length)

/-- The characters before the first occurrence of `sep` (the whole list if
`sep` does not occur). -/
def takeUntilSub (sep l : List Char) : List Char :=
  match findSubIdx sep l with
  | some i => l.take i
  | none => l

/-- The orchestrator's domain extraction:
`url.split("://").nth(1).and_then(|s| s.split('/').next())`, falling back
to the whole URL when no `"://"` occurs.  The second segment of
`split("://")` is the text between the first `"://"` and the next one (or
the end), and `split('/').next()` cuts it at the first `/`. -/
def extractDomain (url : String) : String :=
  match afterFirstSub "://".data url.data with
  | some rest => String.mk (takeUntilSub "/".data (takeUntilSub "://".data rest))
  | none => url

/-- The per-tick browser/URL handling of `CybersecurityMonitor::run`
(lines 64–89): the discovery result is this step's input; on a discovered
URL, dwell tracking runs and the shared context is rewritten; on no URL,
dwell tracking runs and the context is deliberately left unchanged. -/
structure MonitorState where
  bm : BrowserMonitorState
  ctx : PartialAccessContext
deriving DecidableEq

def monitorTick (now : ℚ) (discovered : Option String) (s : MonitorState) :
    MonitorState :=
  match discovered with
  | some url =>
    { bm := updateTiming now (some url) s.bm,
      ctx := { current_url := url, current_domain := extractDomain url } }
  | none =>
    { s with bm := updateTiming now none s.bm }

/-! ## Application usage tracker (`src/core/app_tracker.rs`) -/

/-- `settings::TRACK_APP_USAGE`. -/
def TRACK_APP_USAGE : Bool := true

/-- `settings::MINIMUM_APP_TIME` (seconds), compared as `f64`. -/
def MINIMUM_APP_TIME : ℚ := 5

/-- `settings::get_app_categories`, in source insertion order.  (The Rust
`HashMap` iterates in an unspecified order; the order only matters for the
few process names appearing under several categories, which the claims do
not exercise.) -/
def appCategories : List (String × List String) :=
  [("Browsers", ["chrome", "firefox", "msedge", "opera", "brave", "vivaldi", "safari", "tor"]),
   ("Communication", ["teams", "zoom", "discord", "slack", "whatsapp", "signal", "telegram", "skype"]),
   ("Social Media", ["facebook", "instagram", "twitter", "tiktok", "reddit", "linkedin", "pinterest"]),
   ("Productivity", ["winword", "excel", "powerpnt", "outlook", "onenote", "notepad++", "vscode", "code"]),
   ("Entertainment", ["spotify", "vlc", "netflix", "disney+", "primevideo", "steam", "epicgameslauncher"]),
   ("Development", ["vscode", "code", "pycharm", "intellij", "androidstudio", "visualstudio", "git", "docker"]),
   ("Creative", ["photoshop", "illustrator", "premiere", "aftereffects", "blender", "audacity", "obs"]),
   ("Utilities", ["explorer", "taskmgr", "control", "settings", "calculator", "mspaint", "cmd", "powershell"])]

/-- `AppTimeTracker::get_app_category`: first category one of whose
representative names occurs in the app name; `"Other"` if none. -/
def getAppCategory (appName : String) : String :=
  match appCategories.find? (fun c => c.2.any fun a => strContains appName (toLowerS a)) with
  | some c => c.1
  | none => "Other"

/-- The `AppData` aggregation maps of `src/core/app_tracker.rs`. -/
structure AppData where
  app_total_time : List (String × ℚ)
  app_sessions : List (String × Nat)
  app_category_time : List (String × ℚ)
deriving DecidableEq

/-- `AppTimeTracker` state, plus the session log file's appended records
(each written line carries the app name and the duration, formatted with a
timestamp). -/
structure AppTimeTracker where
  current_app : Option String
  app_start_time : Option ℚ
  data : AppData
  log : List (String × ℚ)
deriving DecidableEq

/-- `AppTimeTracker::new`. -/
def AppTimeTracker.new : AppTimeTracker :=
  { current_app := none, app_start_time := none,
    data := { app_total_time := [], app_sessions := [], app_category_time := [] },
    log := [] }

/-- `AppTimeTracker::record_app_session`: append a log record, add the
duration to the app's cumulative time, bump its session count, and add the
duration to its category's cumulative time. -/
def recordAppSession (s : AppTimeTracker) (app : String) (duration : ℚ) :
    AppTimeTracker :=
  { s with
    log := s.log ++ [(app, duration)],
    data :=
      { app_total_time := addEntry s.data.app_total_time app duration,
        app_sessions := incEntry s.data.app_sessions app,
        app_category_time :=
          addEntry s.data.app_category_time (getAppCategory app) duration } }

/-- The `if let (Some(app), Some(start)) = (current_app.take(), app_start_time.take())`
pattern used on idle, on app switch and on loss of an active app: both
fields are cleared unconditionally (`take`), and the closed session is
recorded only when its duration reaches `MINIMUM_APP_TIME`. -/
def closeOpenSession (now : ℚ) (s : AppTimeTracker) : AppTimeTracker :=
  let cleared := { s with current_app := none, app_start_time := none }
  match s.current_app, s.app_start_time with
  | some app, some start =>
    if now - start ≥ MINIMUM_APP_TIME then recordAppSession cleared app (now - start)
    else cleared
  | _, _ => cleared

/-- `AppTimeTracker::track_app_usage`.  The two OS queries (idle
detection, foreground-process resolution with ignore-list filtering) are
this step's inputs `deviceActive` and `activeApp`; the returned value is
the function's `Option<String>` result paired with the updated tracker. -/
def trackAppUsage (deviceActive : Bool) (activeApp : Option String) (now : ℚ)
    (s : AppTimeTracker) : Option String × AppTimeTracker :=
  if !TRACK_APP_USAGE then (none, s)
  else if !deviceActive then (none, closeOpenSession now s)
  else
    match activeApp with
    | some app =>
      if s.current_app ≠ some app then
        let s1 := closeOpenSession now s
        let s2 := { s1 with current_app := some app, app_start_time := some now }
        (s2.current_app, s2)
      else
        match s.app_start_time with
        | some start =>
          if now - start ≥ 300 then
            let s1 := recordAppSession s app (now - start)
            let s2 := { s1 with app_start_time := some now }
            (s2.current_app, s2)
          else (s.current_app, s)
        | none => (s.current_app, s)
    | none =>
      let s1 := closeOpenSession now s
      (s1.current_app, s1)

/-! ## Partial-Access Manager (`src/core/partial_access_manager.rs`) -/

/-- `struct PartialAccessSite` (serde field names `urlPattern`,
`allowUpload`, `allowDownload`, `monitorMode`, `active`). -/
structure PartialAccessSite where
  url_pattern : String
  allow_upload : Bool
  allow_download : Bool
  monitor_mode : String
  active : Bool
deriving DecidableEq

/-- `enum DialogType`. -/
inductive DialogType where
  | None
  | Upload
  | Download
deriving DecidableEq

/-- `struct PartialAccessConfig`. -/
structure PartialAccessConfig where
  enabled : Bool
  sites : List PartialAccessSite
deriving DecidableEq

/-- The fixed native dialog class markers of `get_dialog_type`. -/
def dialogClasses : List String := ["#32770", "FileChooserDialogClass", "NativeHWNDHost"]

/-- The upload-dialog title keywords of `get_dialog_type`. -/
def uploadKeywords : List String := ["open", "upload", "select file", "choose file"]

/-- The download-dialog title keywords of `get_dialog_type`. -/
def downloadKeywords : List String := ["save", "download"]

/-- `get_dialog_type`: class-marker gate, then the upload classification,
then the download classification.  The class name is matched
case-sensitively; the title is lowercased first. -/
def getDialogType (className title : String) (site : PartialAccessSite) :
    DialogType :=
  let titleLower := toLowerS title
  let isDialogClass := dialogClasses.any fun c => strContains className c
  if !isDialogClass then DialogType.None
  else if !site.allow_upload && (site.monitor_mode == "block")
      && uploadKeywords.any (fun k => strContains titleLower k) then
    DialogType.Upload
  else if !site.allow_download && (site.monitor_mode == "block")
      && downloadKeywords.any (fun k => strContains titleLower k) then
    DialogType.Download
  else DialogType.None

/-- `PartialAccessManager::new`'s config field. -/
def initialConfig : PartialAccessConfig := { enabled := true, sites := [] }

/-- `PartialAccessManager::new`'s context field. -/
def initialContext : PartialAccessContext := { current_url := "", current_domain := "" }

/-- `PartialAccessManager::new`'s stats field (`dialogs_closed`). -/
def initialDialogsClosed : Nat := 0

/-- The site lookup of the background enforcement loop: the first active
site whose URL pattern is a case-insensitive substring of the context
URL. -/
def findSiteConfig (sites : List PartialAccessSite) (currentUrl : String) :
    Option PartialAccessSite :=
  sites.find? fun s =>
    s.active && strContains (toLowerS currentUrl) (toLowerS s.url_pattern)

/-- One iteration of the background enforcement loop, reduced to its
classification decision: which dialog type (if any) gets closed and
reported for the sampled config, context and foreground window.  The
handle debounce, the zero-length-title skip and the OS calls leave this
decision unchanged for a window that does reach classification. -/
def enforcementAction (cfg : PartialAccessConfig) (ctx : PartialAccessContext)
    (className title : String) : DialogType :=
  if !cfg.enabled then DialogType.None
  else
    match findSiteConfig cfg.sites ctx.current_url with
    | none => DialogType.None
    | some site => getDialogType className title site

/-! ## Policy payload parsing (`PartialAccessManager::update_config`) -/

/-- Model of a `serde_json::Value`. -/
inductive Json where
  | null
  | bool (b : Bool)
  | num (q : ℚ)
  | str (s : String)
  | arr (elems : List Json)
  | obj (fields : List (String × Json))

/-- `Value::get(key)` on an object. -/
def Json.get (j : Json) (key : String) : Option Json :=
  match j with
  | Json.obj fields => (fields.find? fun p => p.1 == key).map (·.2)
  | _ => none

/-- `Value::as_bool`. -/
def Json.asBool (j : Json) : Option Bool :=
  match j with
  | Json.bool b => some b
  | _ => none

/-- `Value::as_str`. -/
def Json.asStr (j : Json) : Option String :=
  match j with
  | Json.str s => some s
  | _ => none

/-- `Value::as_array`. -/
def Json.asArray (j : Json) : Option (List Json) :=
  match j with
  | Json.arr xs => some xs
  | _ => none

/-- `serde_json::from_value::<PartialAccessSite>`: all five renamed fields
must be present with the right primitive types; extra fields are
ignored. -/
def parseSite (j : Json) : Option PartialAccessSite := do
  let up ← (j.get "urlPattern").bind Json.asStr
  let au ← (j.get "allowUpload").bind Json.asBool
  let ad ← (j.get "allowDownload").bind Json.asBool
  let mm ← (j.get "monitorMode").bind Json.asStr
  let ac ← (j.get "active").bind Json.asBool
  pure { url_pattern := up, allow_upload := au, allow_download := ad,
         monitor_mode := mm, active := ac }

/-- `PartialAccessManager::update_config`, given the client's fetched
payload (`None` models a failed fetch): the enabled flag is read from
`enabled`, falling back to `active`; the site list is read from
`partialAccessSites`, falling back to `sites`; records that fail to parse
are dropped and the rest replace the site list wholesale. -/
def updateConfig (payload : Option Json) (c : PartialAccessConfig) :
    PartialAccessConfig :=
  match payload with
  | none => c
  | some v =>
    let c1 :=
      match ((v.get "enabled").bind Json.asBool).orElse
          (fun _ => (v.get "active").bind Json.asBool) with
      | some e => { c with enabled := e }
      | none => c
    match (v.get "partialAccessSites").bind Json.asArray with
    | some xs => { c1 with sites := xs.filterMap parseSite }
    | none =>
      match (v.get "sites").bind Json.asArray with
      | some xs => { c1 with sites := xs.filterMap parseSite }
      | none => c1

/-! ## Log upload (`src/config/client.rs`, `APIClient::upload_logs`) -/

/-- The body fields of the `log_upload` POST that depend on the file
content (device id, log-type label and timestamp are independent of the
claim under study). -/
structure LogRequest where
  log_content : String
  file_size : Nat
deriving DecidableEq

/-- Split a character list at every occurrence of `sep` (separators not
kept; `n` separators yield `n + 1` pieces). -/
def splitChar (sep : Char) : List Char → List (List Char)
  | [] => [[]]
  | c :: rest =>
    if c = sep then [] :: splitChar sep rest
    else
      match splitChar sep rest with
      | h :: t => (c :: h) :: t
      | [] => [[c]]

/-- `str::ends_with`. -/
def endsWithS (s p : String) : Bool :=
  p.data.isSuffixOf s.data

/-- Rust `str::lines()`: split on `\n`, strip one trailing `\r` from each
line, and do not produce a final empty line for a trailing newline. -/
def rustLines (content : String) : List String :=
  let parts := (splitChar '\n' content.data).map String.mk
  let parts := if endsWithS content "\n" then parts.dropLast else parts
  parts.map fun l =>
    if endsWithS l "\r" then String.mk l.data.dropLast else l

/-- `APIClient::upload_logs` as a function of the abstract world: the
file (`none` = missing or unreadable), the HTTP outcome of the POST, and
the clear-after flag.  The result is the returned boolean, the file
content afterwards, and the request body sent (if any). -/
def uploadLogs (file : Option String) (httpOk clearAfter : Bool) :
    Bool × Option String × Option LogRequest :=
  match file with
  | none => (false, none, none)
  | some content =>
    if (trimS content).data.isEmpty then (true, some content, none)
    else
      let lines := rustLines content
      let recent := if lines.length > 1000 then lines.drop (lines.length - 1000) else lines
      let req : LogRequest :=
        { log_content := String.intercalate "\n" recent,
          file_size := utf8Len content }
      if httpOk then
        (true, if clearAfter then some "" else some content, some req)
      else
        (false, some content, some req)

/-! ## Address-bar search (`BrowserMonitor::find_address_bar_recursive`)

The accessibility tree is modelled in the first-child/next-sibling form
that the `uiautomation` tree walker exposes to the Rust code
(`get_first_child` / `get_next_sibling`): a `UITree` is either the absence
of an element (a failed walker call) or an element carrying its name, its
automation id, its first child and its next sibling. -/

inductive UITree where
  | nil
  | elem (name : String) (automationId : String)
      (firstChild : UITree) (nextSibling : UITree)
deriving DecidableEq

/-- The element's name (`get_name`); empty for the absent element. -/
def UITree.name : UITree → String
  | UITree.nil => ""
  | UITree.elem n _ _ _ => n

/-- The name test of `find_address_bar_recursive`. -/
def isAddressBarName (name : String) : Bool :=
  strContains (toLowerS name) "address and search bar"
    || strContains (toLowerS name) "address bar"

/-- The automation-id fallback test of `find_address_bar_recursive`. -/
def isAddressBarAutoId (autoId : String) : Bool :=
  (autoId == "addressEditBox") || strContains autoId "url"
    || strContains autoId "address"

/-- The sibling loop of `find_address_bar_recursive` running at recursion
depth `depth`, starting at the walker position `t`: examine the current
element (name test, then automation-id test), recurse into its children at
`depth + 1` — which the callee's `depth > 12` guard cuts off — and then
advance to the next sibling.  `searchSibs depth t` examines elements that
are `depth + 1` levels below the browser window. -/
def searchSibs (depth : Nat) : UITree → Option UITree
  | UITree.nil => none
  | UITree.elem n a fc sib =>
    if isAddressBarName n then some (UITree.elem n a fc sib)
    else if isAddressBarAutoId a then some (UITree.elem n a fc sib)
    else
      match (if depth + 1 > 12 then none else searchSibs (depth + 1) fc) with
      | some found => some found
      | none => searchSibs depth sib

/-- `find_address_bar_recursive(element, depth)`: return `None` when
`depth > 12`, otherwise walk the element's children (first child, then
successive siblings) with the loop above. -/
def findAddressBarRecursive (el : UITree) (depth : Nat) : Option UITree :=
  if depth > 12 then none
  else
    match el with
    | UITree.nil => none
    | UITree.elem _ _ fc _ => searchSibs depth fc

/-- The elements of the sibling chain `t` and all their descendants
within `k` levels, the chain itself being level 1: `collectUpTo 0 t = []`,
and an element contributes itself, its children's collection one level
shallower, and its siblings' collection at the same level. -/
def collectUpTo (k : Nat) : UITree → List UITree
  | UITree.nil => []
  | UITree.elem n a fc sib =>
    match k with
    | 0 => []
    | k + 1 =>
      UITree.elem n a fc sib :: (collectUpTo k fc ++ collectUpTo (k + 1) sib)

/-- The descendants of `el` living at most `k` levels below it (its
children are 1 level below). -/
def nodesUpTo (k : Nat) (el : UITree) : List UITree :=
  match el with
  | UITree.nil => []
  | UITree.elem _ _ fc _ => collectUpTo k fc

/-- A browser-window descendant chain: `chainEx k` is a spine of `k`
single-child nodes named `"x"` with, at the bottom, a node whose name
contains `"address bar"`.  `chainEx 13`'s matching node sits 13 levels
below the window. -/
def chainEx : Nat → UITree
  | 0 => UITree.elem "the address bar value" "" UITree.nil UITree.nil
  | k + 1 => UITree.elem "x" "" (chainEx k) UITree.nil

end Antigravity

namespace Antigravity

/-- C1 (counterexample to the claim as stated): the guard in `is_blocked`
compares `url_lower.len()`, which in Rust is the length of the UTF-8
encoding in bytes, not the character count.  The URL `"é.c"` is only 3
characters long, yet its lowercase form occupies 4 bytes, so the guard does
not fire and the pattern `".c"` matches: `is_blocked` returns true for a
URL shorter than 4 characters. -/
theorem C1_short_url_blocked_counterexample :
    ("é.c" : String).length < 4 ∧ isBlocked [".c"] "é.c" = true := by decide

/-- C1 (amended): `is_blocked` returns false whenever the lowercased URL's
UTF-8 encoding is shorter than 4 bytes (for ASCII URLs this is "shorter
than 4 characters"); past that guard, a pattern without `*` matches iff the
normalized pattern (leading `http://` then `https://` then `www.` stripped,
then trailing `/` removed) occurs as a substring of the equally normalized
lowercased URL, and a pattern with `*` matches iff the case-insensitive
anchored wildcard regex built from it matches the original, unnormalized
URL.  In particular the four concrete examples of the claim hold. -/
theorem C1_blacklist_matching :
    (∀ (bl : List String) (u : String),
      utf8Len (toLowerS u) < 4 → isBlocked bl u = false) ∧
    (∀ (p u : String), 4 ≤ utf8Len (toLowerS u) → containsChar p '*' = false →
      isBlocked [p] u =
        containsSub (normalizeUrl (toLowerS u)).data (normalizeUrl p).data) ∧
    (∀ (p u : String), 4 ≤ utf8Len (toLowerS u) → containsChar p '*' = true →
      isBlocked [p] u = globMatch p.data u.data) ∧
    isBlocked ["facebook.com"] "https://www.Facebook.com/login/" = true ∧
    isBlocked ["a"] "abc" = false ∧
    isBlocked ["*.badsite.com"] "http://mail.badsite.com" = true ∧
    isBlocked ["*.badsite.com"] "http://badsite.com.evil.org" = false := by
  refine ⟨?_, ?_, ?_, by decide, by decide, by decide, by decide⟩
  · intro bl u h
    simp [isBlocked, h]
  · intro p u h hstar
    simp [isBlocked, Nat.not_lt.mpr h, hstar]
  · intro p u h hstar
    simp [isBlocked, Nat.not_lt.mpr h, hstar]

theorem lookupA_insertA {α : Type} (m : List (String × α)) (k : String) (v : α) :
    lookupA (insertA m k v) k = some v := by
  have h : (m.filter fun p => !(p.1 == k)).find? (fun p => p.1 == k) = none := by
    rw [List.find?_eq_none]
    intro x hx
    rw [List.mem_filter] at hx
    simpa using hx.2
  simp [lookupA, insertA, eraseA, List.find?_append, h]

theorem lookupA_addEntry (m : List (String × ℚ)) (k : String) (d : ℚ) :
    lookupA (addEntry m k d) k = some ((lookupA m k).getD 0 + d) :=
  lookupA_insertA ..

theorem updateTiming_history_le (now : ℚ) (u : Option String)
    (s : BrowserMonitorState) (h : s.urls_for_upload.length ≤ 50) :
    (updateTiming now u s).urls_for_upload.length ≤ 50 := by
  cases u with
  | none =>
    simp only [updateTiming]
    split_ifs <;> simpa using h
  | some url =>
    simp only [updateTiming]
    split_ifs <;> simp_all

set_option maxRecDepth 100000 in
/-- C5: after any sequence of `update_timing` calls starting from a fresh
monitor, the pending-upload history has at most 50 entries; and feeding 55
distinct successive URLs leaves exactly the last 50, in arrival order,
oldest evicted first. -/
theorem C5_bounded_history :
    (∀ (inputs : List (ℚ × Option String)),
      ((inputs.foldl (fun s p => updateTiming p.1 p.2 s)
        BrowserMonitorState.new).urls_for_upload.length ≤ 50)) ∧
    ((List.range 55).foldl
        (fun s i => updateTiming 0 (some (String.mk ('u' :: List.replicate i 'x'))) s)
        BrowserMonitorState.new).urls_for_upload
      = ((List.range 55).drop 5).map
          (fun i => String.mk ('u' :: List.replicate i 'x')) := by
  constructor
  · have key : ∀ (inputs : List (ℚ × Option String)) (s : BrowserMonitorState),
        s.urls_for_upload.length ≤ 50 →
        (inputs.foldl (fun s p => updateTiming p.1 p.2 s) s).urls_for_upload.length ≤ 50 := by
      intro inputs
      induction inputs with
      | nil => intro s h; simpa using h
      | cons p rest ih => intro s h; exact ih _ (updateTiming_history_le p.1 p.2 s h)
    intro inputs
    exact key inputs _ (by simp [BrowserMonitorState.new])
  · decide

/-- C2: if discovery returns no URL at a tick immediately after a tick
that returned URL `X` (URLs handed to the tick are nonempty, since
discovery only reports a nonempty address-bar value), the Partial-Access
shared context still holds `X` and its derived domain, while the Browser
Monitor's dwell tracking closes out `X`'s timer: the elapsed time since
`X`'s timer start (falling back to `now2` if no timer was open) is added
to `X`'s cumulative dwell and the last-seen URL is cleared. -/
theorem C2_context_preserved_on_url_loss (s : MonitorState) (X : String)
    (now1 now2 : ℚ) (hX : X ≠ "") :
    (monitorTick now2 none (monitorTick now1 (some X) s)).ctx
      = (monitorTick now1 (some X) s).ctx ∧
    (monitorTick now1 (some X) s).ctx.current_url = X ∧
    (monitorTick now1 (some X) s).ctx.current_domain = extractDomain X ∧
    (monitorTick now2 none (monitorTick now1 (some X) s)).bm.last_url = "" ∧
    lookupA (monitorTick now2 none (monitorTick now1 (some X) s)).bm.total_times X
      = some ((lookupA (monitorTick now1 (some X) s).bm.total_times X).getD 0
          + (now2 - (lookupA (monitorTick now1 (some X) s).bm.url_timers X).getD now2)) := by
  have h1 : (monitorTick now1 (some X) s).bm.last_url = X := by
    simp only [monitorTick, updateTiming]
    split_ifs <;> simp_all
  refine ⟨rfl, rfl, rfl, ?_, ?_⟩
  · show (updateTiming now2 none (monitorTick now1 (some X) s).bm).last_url = ""
    simp only [updateTiming, h1]
    rw [if_pos hX]
  · show lookupA (updateTiming now2 none (monitorTick now1 (some X) s).bm).total_times X = _
    simp only [updateTiming, h1]
    rw [if_pos hX]
    exact lookupA_addEntry ..

/-- C2 witness: the theorem applied at a concrete state and URL. -/
theorem C2_context_preserved_on_url_loss_witness :
    (monitorTick 13 none (monitorTick 10 (some "https://x.io/a")
        { bm := BrowserMonitorState.new,
          ctx := { current_url := "", current_domain := "" } })).ctx
      = (monitorTick 10 (some "https://x.io/a")
          { bm := BrowserMonitorState.new,
            ctx := { current_url := "", current_domain := "" } }).ctx ∧
    (monitorTick 10 (some "https://x.io/a")
        { bm := BrowserMonitorState.new,
          ctx := { current_url := "", current_domain := "" } }).ctx.current_url
      = "https://x.io/a" ∧
    (monitorTick 10 (some "https://x.io/a")
        { bm := BrowserMonitorState.new,
          ctx := { current_url := "", current_domain := "" } }).ctx.current_domain
      = extractDomain "https://x.io/a" ∧
    (monitorTick 13 none (monitorTick 10 (some "https://x.io/a")
        { bm := BrowserMonitorState.new,
          ctx := { current_url := "", current_domain := "" } })).bm.last_url = "" ∧
    lookupA (monitorTick 13 none (monitorTick 10 (some "https://x.io/a")
        { bm := BrowserMonitorState.new,
          ctx := { current_url := "", current_domain := "" } })).bm.total_times
        "https://x.io/a"
      = some ((lookupA (monitorTick 10 (some "https://x.io/a")
            { bm := BrowserMonitorState.new,
              ctx := { current_url := "", current_domain := "" } }).bm.total_times
            "https://x.io/a").getD 0
          + (13 - (lookupA (monitorTick 10 (some "https://x.io/a")
              { bm := BrowserMonitorState.new,
                ctx := { current_url := "", current_domain := "" } }).bm.url_timers
              "https://x.io/a").getD 13)) :=
  C2_context_preserved_on_url_loss
    { bm := BrowserMonitorState.new, ctx := { current_url := "", current_domain := "" } }
    "https://x.io/a" 10 13 (by decide)

/-- C3 (counterexample to the claim as stated): the 300-second flush only
happens at a tick, and it records the full elapsed `now - start`.  At a
tick 302 seconds into a continuous session the recorded session duration
is 302 seconds, exceeding the claimed 300-second cap. -/
theorem C3_session_cap_counterexample :
    ((trackAppUsage true (some "app") 302
        { current_app := some "app", app_start_time := some 0,
          data := { app_total_time := [], app_sessions := [], app_category_time := [] },
          log := [] }).2.log = [("app", 302)]) ∧ ¬ ((302 : ℚ) ≤ 300) := by
  constructor
  · norm_num [trackAppUsage, TRACK_APP_USAGE, recordAppSession]
  · norm_num

/-- C3 (amended): when the tracked app is unchanged and its open session
has been open at least 300 seconds at a tick, the tracker records a
session of the full elapsed duration `now - start` (which is at least 300
seconds but may exceed 300, since the check only runs at ticks) and
immediately reopens a session for the same app starting now; the
cumulative per-app time across the flushed segment and the following
segment is additive: closing the reopened session at `now2` leaves the
app's cumulative time larger than before by exactly `now2 - st`, with no
double-count and no gap. -/
theorem C3_session_cap (s : AppTimeTracker) (a : String) (st now now2 : ℚ)
    (h1 : s.current_app = some a) (h2 : s.app_start_time = some st)
    (h3 : 300 ≤ now - st) (h4 : 5 ≤ now2 - now) :
    (trackAppUsage true (some a) now s).1 = some a ∧
    (trackAppUsage true (some a) now s).2.current_app = some a ∧
    (trackAppUsage true (some a) now s).2.app_start_time = some now ∧
    (trackAppUsage true (some a) now s).2.log = s.log ++ [(a, now - st)] ∧
    300 ≤ now - st ∧
    lookupA (trackAppUsage true (some a) now s).2.data.app_total_time a
      = some ((lookupA s.data.app_total_time a).getD 0 + (now - st)) ∧
    (trackAppUsage false none now2 (trackAppUsage true (some a) now s).2).2.log
      = s.log ++ [(a, now - st), (a, now2 - now)] ∧
    lookupA (trackAppUsage false none now2
        (trackAppUsage true (some a) now s).2).2.data.app_total_time a
      = some ((lookupA s.data.app_total_time a).getD 0 + (now2 - st)) := by
  have e1 : trackAppUsage true (some a) now s
      = (some a, { recordAppSession s a (now - st) with app_start_time := some now }) := by
    simp [trackAppUsage, TRACK_APP_USAGE, h1, h2, h3, recordAppSession]
  have e2 : trackAppUsage false none now2
        (trackAppUsage true (some a) now s).2
      = (none, recordAppSession
          { recordAppSession s a (now - st) with
            app_start_time := none, current_app := none } a (now2 - now)) := by
    rw [e1]
    simp [trackAppUsage, TRACK_APP_USAGE, closeOpenSession, MINIMUM_APP_TIME, h1, h4,
      recordAppSession]
  refine ⟨by rw [e1], by rw [e1]; simp [recordAppSession, h1], by rw [e1],
    by rw [e1]; simp [recordAppSession], h3, ?_, by rw [e2]; simp [recordAppSession], ?_⟩
  · rw [e1]
    simpa [recordAppSession] using lookupA_addEntry s.data.app_total_time a (now - st)
  · rw [e2]
    simp only [recordAppSession]
    rw [lookupA_addEntry, lookupA_addEntry]
    simp only [Option.getD_some]
    congr 1
    ring

/-- C3 witness: the amended theorem applied at a concrete session. -/
theorem C3_session_cap_witness :
    lookupA (trackAppUsage false none 310
        (trackAppUsage true (some "work") 300
          { current_app := some "work", app_start_time := some 0,
            data := { app_total_time := [], app_sessions := [], app_category_time := [] },
            log := [] }).2).2.data.app_total_time "work"
      = some ((lookupA ([] : List (String × ℚ)) "work").getD 0 + (310 - 0)) :=
  (C3_session_cap
    { current_app := some "work", app_start_time := some 0,
      data := { app_total_time := [], app_sessions := [], app_category_time := [] },
      log := [] }
    "work" 0 300 310 rfl rfl (by norm_num) (by norm_num)).2.2.2.2.2.2.2

/-- C4: each of the three session-close paths (idle transition, app
switch, loss of an active app) leaves the aggregation maps and log exactly
as the idle path does; a close whose duration is under 5 seconds changes
neither the log nor any aggregation map, and a close of 5 seconds or more
appends the log record and updates cumulative time, session count and
category time. -/
theorem C4_minimum_session_filter (s : AppTimeTracker) (a b : String)
    (st now : ℚ) (h1 : s.current_app = some a) (h2 : s.app_start_time = some st)
    (hb : a ≠ b) :
    ((trackAppUsage true none now s).2 = (trackAppUsage false none now s).2 ∧
     (trackAppUsage true (some b) now s).2.data = (trackAppUsage false none now s).2.data ∧
     (trackAppUsage true (some b) now s).2.log = (trackAppUsage false none now s).2.log) ∧
    (now - st < 5 →
      (trackAppUsage false none now s).2.data = s.data ∧
      (trackAppUsage false none now s).2.log = s.log) ∧
    (5 ≤ now - st →
      (trackAppUsage false none now s).2.log = s.log ++ [(a, now - st)] ∧
      (trackAppUsage false none now s).2.data.app_total_time
        = addEntry s.data.app_total_time a (now - st) ∧
      (trackAppUsage false none now s).2.data.app_sessions
        = incEntry s.data.app_sessions a ∧
      (trackAppUsage false none now s).2.data.app_category_time
        = addEntry s.data.app_category_time (getAppCategory a) (now - st)) := by
  refine ⟨⟨?_, ?_, ?_⟩, ?_, ?_⟩
  · simp [trackAppUsage, TRACK_APP_USAGE]
  · simp [trackAppUsage, TRACK_APP_USAGE, h1, hb]
  · simp [trackAppUsage, TRACK_APP_USAGE, h1, hb]
  · intro h
    simp [trackAppUsage, TRACK_APP_USAGE, closeOpenSession, MINIMUM_APP_TIME, h1, h2,
      not_le.mpr h]
  · intro h
    simp [trackAppUsage, TRACK_APP_USAGE, closeOpenSession, MINIMUM_APP_TIME, h1, h2,
      h, recordAppSession]

/-- C4 witness: the theorem applied at a concrete 4.9-second session,
whose close is discarded entirely. -/
theorem C4_minimum_session_filter_witness :
    (trackAppUsage false none (49/10)
        { current_app := some "work", app_start_time := some 0,
          data := { app_total_time := [], app_sessions := [], app_category_time := [] },
          log := [] }).2.data
      = ({ current_app := some "work", app_start_time := some 0,
           data := { app_total_time := [], app_sessions := [], app_category_time := [] },
           log := [] } : AppTimeTracker).data ∧
    (trackAppUsage false none (49/10)
        { current_app := some "work", app_start_time := some 0,
          data := { app_total_time := [], app_sessions := [], app_category_time := [] },
          log := [] }).2.log
      = ({ current_app := some "work", app_start_time := some 0,
           data := { app_total_time := [], app_sessions := [], app_category_time := [] },
           log := [] } : AppTimeTracker).log :=
  (C4_minimum_session_filter
    { current_app := some "work", app_start_time := some 0,
      data := { app_total_time := [], app_sessions := [], app_category_time := [] },
      log := [] }
    "work" "other" 0 (49/10) rfl rfl (by decide)).2.1 (by norm_num)

/-- C6: a window whose class name contains no dialog class marker is
never classified as restricted; among candidates, the classification is an
upload dialog iff the site disallows upload, its monitor mode is "block"
and the lowercased title contains an upload keyword; it is a download
dialog iff the site disallows download, the mode is "block", the title
contains a download keyword, and the upload classification (checked first)
did not fire; otherwise it is not restricted. -/
theorem C6_dialog_classification (className title : String)
    (site : PartialAccessSite) :
    ((dialogClasses.any fun c => strContains className c) = false →
      getDialogType className title site = DialogType.None) ∧
    (getDialogType className title site = DialogType.Upload ↔
      ((dialogClasses.any fun c => strContains className c) = true ∧
       site.allow_upload = false ∧ site.monitor_mode = "block" ∧
       (uploadKeywords.any fun k => strContains (toLowerS title) k) = true)) ∧
    (getDialogType className title site = DialogType.Download ↔
      ((dialogClasses.any fun c => strContains className c) = true ∧
       site.allow_download = false ∧ site.monitor_mode = "block" ∧
       (downloadKeywords.any fun k => strContains (toLowerS title) k) = true ∧
       ¬(site.allow_upload = false ∧
         (uploadKeywords.any fun k => strContains (toLowerS title) k) = true))) := by
  unfold getDialogType
  dsimp only
  split_ifs with h1 h2 h3 <;>
    simp_all [Bool.and_eq_true, beq_iff_eq, Bool.not_eq_true',
      Bool.not_eq_true]

/-- C6 witness: a Chrome top-level window (class contains no dialog
marker) is not classified, even with a blocking site and a "Save"
title. -/
theorem C6_dialog_classification_witness :
    getDialogType "Chrome_WidgetWin_1" "Save As"
      { url_pattern := "x.io", allow_upload := false, allow_download := false,
        monitor_mode := "block", active := true } = DialogType.None :=
  (C6_dialog_classification "Chrome_WidgetWin_1" "Save As"
    { url_pattern := "x.io", allow_upload := false, allow_download := false,
      monitor_mode := "block", active := true }).1 (by decide)

/-- C7: a payload carrying `active` and `sites` parses exactly like one
carrying `enabled` and `partialAccessSites`; the primary key names yield
the enabled flag and the wholesale-replaced, parse-filtered site list;
when both site keys are present the primary `partialAccessSites` wins; and
a site record that fails to parse is dropped while the records around it
are kept. -/
theorem C7_policy_config_update :
    (∀ (b : Bool) (xs : List Json) (c : PartialAccessConfig),
      updateConfig (some (Json.obj [("active", Json.bool b), ("sites", Json.arr xs)])) c
        = updateConfig (some (Json.obj [("enabled", Json.bool b),
            ("partialAccessSites", Json.arr xs)])) c) ∧
    (∀ (b : Bool) (xs : List Json) (c : PartialAccessConfig),
      updateConfig (some (Json.obj [("enabled", Json.bool b),
          ("partialAccessSites", Json.arr xs)])) c
        = { enabled := b, sites := xs.filterMap parseSite }) ∧
    (∀ (b : Bool) (xs ys : List Json) (c : PartialAccessConfig),
      updateConfig (some (Json.obj [("enabled", Json.bool b),
          ("partialAccessSites", Json.arr xs), ("sites", Json.arr ys)])) c
        = { enabled := b, sites := xs.filterMap parseSite }) ∧
    updateConfig (some (Json.obj [("active", Json.bool true),
        ("sites", Json.arr
          [Json.obj [("urlPattern", Json.str "a.com"), ("allowUpload", Json.bool false),
             ("allowDownload", Json.bool true), ("monitorMode", Json.str "block"),
             ("active", Json.bool true)],
           Json.str "garbage",
           Json.obj [("urlPattern", Json.str "b.com"), ("allowUpload", Json.bool true),
             ("allowDownload", Json.bool false), ("monitorMode", Json.str "monitor"),
             ("active", Json.bool false)]])])) initialConfig
      = { enabled := true,
          sites :=
            [{ url_pattern := "a.com", allow_upload := false, allow_download := true,
               monitor_mode := "block", active := true },
             { url_pattern := "b.com", allow_upload := true, allow_download := false,
               monitor_mode := "monitor", active := false }] } :=
  ⟨fun b xs c => rfl, fun b xs c => rfl, fun b xs ys c => rfl, by decide⟩

/-- C8: `upload_logs` returns false on a missing or unreadable file; an
empty-after-trim file is a no-op success with no request sent and the file
untouched; otherwise the request carries the last at-most-1000 lines
joined by newlines together with the byte length of the full original
content, the returned flag is the HTTP outcome, and the file is truncated
exactly when the HTTP request succeeded and clear-after was requested. -/
theorem C8_upload_logs (content : String) (httpOk clearAfter : Bool) :
    uploadLogs none httpOk clearAfter = (false, none, none) ∧
    ((trimS content).data.isEmpty = true →
      uploadLogs (some content) httpOk clearAfter = (true, some content, none)) ∧
    ((trimS content).data.isEmpty = false →
      (uploadLogs (some content) httpOk clearAfter).2.2
        = some { log_content := String.intercalate "\n"
                   (if (rustLines content).length > 1000 then
                     (rustLines content).drop ((rustLines content).length - 1000)
                   else rustLines content),
                 file_size := utf8Len content } ∧
      (uploadLogs (some content) httpOk clearAfter).1 = httpOk ∧
      (uploadLogs (some content) httpOk clearAfter).2.1
        = (if httpOk && clearAfter then some "" else some content)) ∧
    (if (rustLines content).length > 1000 then
        (rustLines content).drop ((rustLines content).length - 1000)
      else rustLines content).length ≤ 1000 := by
  refine ⟨rfl, ?_, ?_, ?_⟩
  · intro h
    simp [uploadLogs, h]
  · intro h
    refine ⟨?_, ?_, ?_⟩ <;>
      · simp only [uploadLogs, h, Bool.false_eq_true, if_false]
        cases httpOk <;> cases clearAfter <;> simp
  · split_ifs with h
    · simp [Nat.sub_sub_self (le_of_lt (by omega : 1000 < (rustLines content).length))]
    · omega

/-- C8 witness: a present two-line log with a successful POST and
clear-after requested. -/
theorem C8_upload_logs_witness :
    (uploadLogs (some "a\nb") true true).2.2
      = some { log_content := String.intercalate "\n"
                 (if (rustLines "a\nb").length > 1000 then
                   (rustLines "a\nb").drop ((rustLines "a\nb").length - 1000)
                 else rustLines "a\nb"),
               file_size := utf8Len "a\nb" } ∧
    (uploadLogs (some "a\nb") true true).1 = true ∧
    (uploadLogs (some "a\nb") true true).2.1
      = (if true && true then some "" else some "a\nb") :=
  (C8_upload_logs "a\nb" true true).2.2.1 (by decide)

/-- The sibling loop at depth `d ≤ 12` only ever returns an element drawn
from the examined chain itself or from the levels its recursive calls may
still reach: at most `13 - d` levels counted from the chain's parent. -/
theorem searchSibs_mem (r : UITree) :
    ∀ (t : UITree) (d : Nat), d ≤ 12 → searchSibs d t = some r →
      r ∈ collectUpTo (13 - d) t := by
  intro t
  induction t with
  | nil =>
    intro d _ h
    simp [searchSibs] at h
  | elem n a fc sib ihfc ihsib =>
    intro d hd h
    have h13 : 13 - d = (12 - d) + 1 := by omega
    rw [h13]
    by_cases hn : isAddressBarName n = true
    · rw [searchSibs, if_pos hn] at h
      rw [← Option.some.inj h]
      simp [collectUpTo]
    · by_cases ha : isAddressBarAutoId a = true
      · rw [searchSibs, if_neg (by simp [hn]), if_pos ha] at h
        rw [← Option.some.inj h]
        simp [collectUpTo]
      · rw [searchSibs, if_neg (by simp [hn]), if_neg (by simp [ha])] at h
        rcases hin : (if d + 1 > 12 then none else searchSibs (d + 1) fc) with _ | f
        · rw [hin] at h
          have hmem := ihsib d hd h
          rw [h13] at hmem
          simp only [collectUpTo, List.mem_cons, List.mem_append]
          tauto
        · rw [hin] at h
          have hf : f = r := Option.some.inj h
          have hle : d + 1 ≤ 12 := by
            by_contra hgt
            rw [if_pos (by omega)] at hin
            exact Option.noConfusion hin
          rw [if_neg (by omega)] at hin
          have hmem := ihfc (d + 1) hle (hf ▸ hin)
          have h12 : 13 - (d + 1) = 12 - d := by omega
          rw [h12] at hmem
          simp only [collectUpTo, List.mem_cons, List.mem_append]
          tauto

/-- C9 (counterexample to the claim as stated): the guard `depth > 12`
only stops calls at depth 13, so a call at depth 12 still examines
elements 13 levels below the browser window.  On a 13-deep chain whose
only matching node sits 13 levels down, the search examines — and
returns — that node, while every element within 12 levels of the window is
an unmatching `"x"` node. -/
theorem C9_depth_bound_counterexample :
    (findAddressBarRecursive (chainEx 13) 0).map UITree.name
        = some "the address bar value" ∧
    (nodesUpTo 12 (chainEx 13)).all (fun e => e.name == "x") = true := by decide

/-- C9 (amended): the depth-first address-bar search below a browser
window terminates (it is a total function of the finite tree), and any
element it returns lies at most 13 levels below the browser window: the
depth counter rejects depths above 12, so the children of a depth-12 call
— 13 levels below the window — are the deepest elements examined. -/
theorem C9_depth_bounded_search (el r : UITree)
    (h : findAddressBarRecursive el 0 = some r) :
    r ∈ nodesUpTo 13 el := by
  unfold findAddressBarRecursive at h
  rw [if_neg (by omega)] at h
  cases el with
  | nil => exact absurd h (by simp)
  | elem n a fc sib =>
    have hmem := searchSibs_mem r fc 0 (by omega) h
    simpa [nodesUpTo] using hmem

/-- C9 witness: the amended theorem applied to the 13-deep chain. -/
theorem C9_depth_bounded_search_witness :
    chainEx 0 ∈ nodesUpTo 13 (chainEx 13) :=
  C9_depth_bounded_search (chainEx 13) (chainEx 0) (by decide)

/-- C10: a freshly constructed Partial-Access manager has enforcement
enabled, an empty site list, empty context URL and domain, and a zero
dialogs-closed counter; with an empty site list no site ever matches, so
no window is ever classified as a restricted dialog. -/
theorem C10_initial_state :
    initialConfig.enabled = true ∧
    initialConfig.sites = [] ∧
    initialContext.current_url = "" ∧
    initialContext.current_domain = "" ∧
    initialDialogsClosed = 0 ∧
    (∀ (ctx : PartialAccessContext) (className title : String),
      findSiteConfig initialConfig.sites ctx.current_url = none ∧
      enforcementAction initialConfig ctx className title = DialogType.None) :=
  ⟨rfl, rfl, rfl, rfl, rfl, fun _ _ _ => ⟨rfl, rfl⟩⟩

/-- C1 witness: the amended theorem applied at concrete inputs. -/
theorem C1_blacklist_matching_witness :
    isBlocked ["facebook.com"] "https://www.Facebook.com/login/" =
      containsSub (normalizeUrl (toLowerS "https://www.Facebook.com/login/")).data
        (normalizeUrl "facebook.com").data ∧
    isBlocked ["*.badsite.com"] "http://mail.badsite.com" =
      globMatch "*.badsite.com".data "http://mail.badsite.com".data ∧
    isBlocked ["x"] "ab" = false :=
  ⟨C1_blacklist_matching.2.1 "facebook.com" "https://www.Facebook.com/login/"
      (by decide) (by decide),
   C1_blacklist_matching.2.2.1 "*.badsite.com" "http://mail.badsite.com"
      (by decide) (by decide),
   C1_blacklist_matching.1 ["x"] "ab" (by decide)⟩

end Antigravity
